import Mathlib

/-!
Shallow embedding of the OCR microservices of the `tai` repository
(`src/ocr-services/{surya,paddleocr,pix2text}-service/main.py`): the result
normalization performed inside each service's `perform_ocr` handler, the
Surya engine's variant-selection and lazy-loading state machine, and the
`/health` readiness reporters.  External model libraries (Surya, PaddleOCR,
Pix2Text), image decoding and HTTP plumbing are modelled as opaque
environment outcomes; Python floats are modelled as rationals.  Wall-clock
`processingTime` fields are omitted: they are measurement, not
normalization logic.
-/

namespace Tai

/-- A Python value sitting in a confidence slot: either a number or a
non-numeric value (modelled by its repr string).  `getattr` defaults and
`sum(...)` distinguish exactly these two cases. -/
inductive PyVal where
  | num (q : ℚ)
  | nonnum (s : String)
deriving DecidableEq, Repr

/-- Python's `sum(xs)` over a list of confidence values, a left fold
starting from the integer 0; raises `TypeError` (modelled as
`Except.error`) at the first non-numeric element. -/
def pySumAux (acc : ℚ) : List PyVal → Except String ℚ
  | [] => Except.ok acc
  | PyVal.num q :: rest => pySumAux (acc + q) rest
  | PyVal.nonnum s :: _ =>
      Except.error ("unsupported operand type for +: " ++ s)

namespace Pix2Text

/-- One element of a list-shaped Pix2Text result: the code keeps only the
elements that are `dict`s (`isinstance(item, dict)`), reading their
optional `'text'` entry. -/
inductive P2TItem where
  | dict (text : Option String)
  | nondict
deriving DecidableEq, Repr

/-- The duck-typed shapes `p2t.recognize` may return, as discriminated by
`perform_ocr`'s `isinstance` chain: a bare string, a list of items, a
single dict with optional `'text'` and `'score'` entries, or anything
else (carried as its `str(...)` rendering). -/
inductive P2TResult where
  | str (s : String)
  | list (items : List P2TItem)
  | dict (text : Option String) (score : Option ℚ)
  | other (reprStr : String)
deriving DecidableEq, Repr

/-- The JSON body built by the pix2text service. -/
structure P2TResponse where
  engine : String
  text : String
  latex : String
  confidence : ℚ
deriving DecidableEq, Repr

/-- `perform_ocr`'s result-parsing branch in
`src/ocr-services/pix2text-service/main.py` (lines 50-69): the
`isinstance(result, str) / list / dict / else` chain. -/
def perform_ocr : P2TResult → P2TResponse
  | P2TResult.str s =>
      { engine := "pix2text", text := s, latex := s, confidence := 85/100 }
  | P2TResult.list items =>
      let texts := items.filterMap (fun it =>
        match it with
        | P2TItem.dict t => some (t.getD "")
        | P2TItem.nondict => none)
      let full_text := if texts ≠ [] then String.intercalate " " texts else ""
      { engine := "pix2text", text := full_text, latex := full_text,
        confidence := 85/100 }
  | P2TResult.dict t sc =>
      let full_text := t.getD ""
      { engine := "pix2text", text := full_text, latex := full_text,
        confidence := sc.getD (85/100) }
  | P2TResult.other r =>
      { engine := "pix2text", text := r, latex := r, confidence := 85/100 }

end Pix2Text

namespace Paddle

/-- One entry of `result[0]` as destructured by
`bbox, (text, confidence) = line`: PaddleOCR supplies the box as a list of
corner points and a numeric confidence (the code applies `float(...)`). -/
structure PaddleLine where
  bbox : List (List ℚ)
  text : String
  confidence : ℚ
deriving DecidableEq, Repr

/-- One element of the response's `lines` array. -/
structure PaddleLineOut where
  bbox : List ℚ
  text : String
  confidence : ℚ
deriving DecidableEq, Repr

/-- The per-line dict built at lines 65-69 of
`src/ocr-services/paddleocr-service/main.py`; the comprehension
`[float(coord) for point in bbox for coord in point]` flattens the corner
points into one flat sequence. -/
def lineOut (l : PaddleLine) : PaddleLineOut :=
  { bbox := l.bbox.flatten, text := l.text, confidence := l.confidence }

/-- `if result and result[0]:` — the loop body runs only when the outer
list is truthy (non-empty) and its first group is truthy (non-empty);
otherwise no lines are parsed. -/
def parsedLines : List (List PaddleLine) → List PaddleLine
  | [] => []
  | g :: _ => if g ≠ [] then g else []

/-- The JSON body built by the paddleocr service. -/
structure PaddleResponse where
  engine : String
  text : String
  confidence : ℚ
  lines : List PaddleLineOut
deriving DecidableEq, Repr

/-- `perform_ocr`'s result-parsing section in
`src/ocr-services/paddleocr-service/main.py` (lines 55-83). -/
def perform_ocr (result : List (List PaddleLine)) : PaddleResponse :=
  let lines := parsedLines result
  let texts := lines.map PaddleLine.text
  let confidences := lines.map PaddleLine.confidence
  let bboxes := lines.map lineOut
  { engine := "paddleocr"
  , text := if texts ≠ [] then String.intercalate " " texts else ""
  , confidence :=
      if confidences ≠ [] then confidences.sum / (confidences.length : ℚ)
      else 0
  , lines := bboxes }

/-- Module-level state of the paddle service: the single handle created by
`ocr = PaddleOCR(...)` at import time. -/
structure PaddleState where
  ocrHandle : Option Unit
deriving DecidableEq, Repr

/-- A serving paddle process holds the constructed handle: the constructor
runs at module import, so if it raised, the server never came up. -/
def startState : PaddleState := { ocrHandle := some () }

/-- The paddle `/health` body. -/
structure HealthResponse where
  status : String
  engine : String
  version : String
deriving DecidableEq, Repr

/-- The `/health` handler (lines 88-95): a constant body, reading no
state. -/
def health_check : HealthResponse :=
  { status := "healthy", engine := "paddleocr", version := "2.7.3" }

end Paddle

namespace Surya

/-- Exceptions raised inside the engine: `import_module` raises
`ModuleNotFoundError` (the only class caught by the legacy probe loop) or
some other exception (propagated). -/
inductive PyErr where
  | moduleNotFound (msg : String)
  | other (msg : String)
deriving DecidableEq, Repr

def PyErr.message : PyErr → String
  | PyErr.moduleNotFound m => m
  | PyErr.other m => m

/-- The fields set in `SuryaEngine.__init__` (lines 16-34).  Model handles
are opaque (`Option Unit`: assigned or still `None`; real handles are
model objects, hence truthy).  `modernConstructCalls`, `legacyProbeCalls`
and `loaderCalls` are ghost instrumentation counting calls of
`load_predictors()`, entries into `_init_legacy`'s import probe, and calls
of the four legacy `load_*` functions; `legacyPackage` mirrors the
`package` local that `_init_legacy` selects.  The Python object has no
such fields. -/
structure EngineState where
  mode : Option String
  det_predictor : Option Unit
  rec_predictor : Option Unit
  task_name : Option Unit
  run_ocr : Option Unit
  load_det_model : Option Unit
  load_det_processor : Option Unit
  load_rec_model : Option Unit
  load_rec_processor : Option Unit
  det_model : Option Unit
  det_processor : Option Unit
  rec_model : Option Unit
  rec_processor : Option Unit
  modern_error : Option String
  initialized : Bool
  legacyPackage : Option String
  modernConstructCalls : Nat
  legacyProbeCalls : Nat
  loaderCalls : Nat
deriving DecidableEq, Repr

/-- The freshly constructed engine (`SuryaEngine()` at line 164). -/
def initState : EngineState :=
  { mode := none, det_predictor := none, rec_predictor := none,
    task_name := none, run_ocr := none, load_det_model := none,
    load_det_processor := none, load_rec_model := none,
    load_rec_processor := none, det_model := none, det_processor := none,
    rec_model := none, rec_processor := none, modern_error := none,
    initialized := false, legacyPackage := none,
    modernConstructCalls := 0, legacyProbeCalls := 0, loaderCalls := 0 }

/-- Outcomes of the external calls the engine makes, fixed for the life of
the process: whether `importlib.util.find_spec("surya.models")` finds the
modern module surface, what `load_predictors()` does, what
`import_module(path)` does for each module path, and what the four legacy
loader functions do when called. -/
structure Env where
  modernSpecPresent : Bool
  load_predictors : Except String Unit
  importModule : String → Except PyErr Unit
  load_det_model_fn : Except String Unit
  load_det_processor_fn : Except String Unit
  load_rec_model_fn : Except String Unit
  load_rec_processor_fn : Except String Unit

/-- `SuryaEngine._init_modern` (lines 52-68): one bundled
`load_predictors()` call yields both predictors and the task name; on
failure the exception propagates with no handle assigned.  The ghost
counter records the construction attempt either way. -/
def init_modern (env : Env) (s : EngineState) :
    Except (PyErr × EngineState) EngineState :=
  let s := { s with modernConstructCalls := s.modernConstructCalls + 1 }
  match env.load_predictors with
  | Except.error e => Except.error (PyErr.other e, s)
  | Except.ok _ =>
      Except.ok { s with
        det_predictor := some (), rec_predictor := some (),
        task_name := some (), mode := some "modern" }

/-- The five module paths `_init_legacy` imports for a candidate
namespace (lines 81-85). -/
def legacyModulePaths (candidate : String) : List String :=
  [candidate ++ ".ocr",
   candidate ++ ".model.detection.model",
   candidate ++ ".model.detection.processor",
   candidate ++ ".model.recognition.model",
   candidate ++ ".model.recognition.processor"]

/-- The sequential imports inside one iteration of `_init_legacy`'s `try`
block: the first failing import aborts the candidate. -/
def importAll (env : Env) : List String → Except PyErr Unit
  | [] => Except.ok ()
  | p :: rest =>
      match env.importModule p with
      | Except.ok _ => importAll env rest
      | Except.error e => Except.error e

/-- `for candidate in ("surya", "surya_ocr")` (lines 79-90): the first
candidate whose five modules all import wins; `ModuleNotFoundError` moves
on to the next candidate (the saved `last_error` only feeds exception
chaining, not the message), while any other exception propagates. -/
def probeCandidates (env : Env) : List String → Except PyErr (Option String)
  | [] => Except.ok none
  | c :: rest =>
      match importAll env (legacyModulePaths c) with
      | Except.ok _ => Except.ok (some c)
      | Except.error (PyErr.moduleNotFound _) => probeCandidates env rest
      | Except.error (PyErr.other m) => Except.error (PyErr.other m)

/-- The `RuntimeError` message built when no legacy namespace imports
(lines 92-96): it names both probed namespaces and, when one was
recorded, appends the modern-path error. -/
def legacyFailDetail (modern_error : Option String) : String :=
  let base := "Surya OCR package not installed (checked 'surya' and 'surya_ocr')"
  match modern_error with
  | some e => base ++ "; modern API error: " ++ e
  | none => base

/-- `SuryaEngine._init_legacy` (lines 70-104): probe the candidate
namespaces, then either store the five legacy entry points or raise. -/
def init_legacy (env : Env) (s : EngineState) :
    Except (PyErr × EngineState) EngineState :=
  let s := { s with legacyProbeCalls := s.legacyProbeCalls + 1 }
  match probeCandidates env ["surya", "surya_ocr"] with
  | Except.error e => Except.error (e, s)
  | Except.ok none =>
      Except.error (PyErr.other (legacyFailDetail s.modern_error), s)
  | Except.ok (some c) =>
      Except.ok { s with
        run_ocr := some (), load_det_model := some (),
        load_det_processor := some (), load_rec_model := some (),
        load_rec_processor := some (),
        mode := some "legacy", legacyPackage := some c }

/-- The tail of `SuryaEngine.initialize` (lines 49-50): run
`_init_legacy`, and only on success set `initialized`. -/
def initLegacyTail (env : Env) (s : EngineState) :
    Except (PyErr × EngineState) EngineState :=
  match init_legacy env s with
  | Except.ok s3 => Except.ok { s3 with initialized := true }
  | Except.error err => Except.error err

/-- `SuryaEngine.initialize` (lines 36-50): return immediately when
already initialized; otherwise, when `find_spec("surya.models")` found the
modern surface, try `_init_modern`, recording its exception in
`modern_error` on failure; then fall back to `_init_legacy`.  When
`_init_legacy` raises, the exception propagates and `initialized` is
never set. -/
def initEngine (env : Env) (s : EngineState) :
    Except (PyErr × EngineState) EngineState :=
  if s.initialized then Except.ok s
  else if env.modernSpecPresent then
    match init_modern env s with
    | Except.ok s' => Except.ok { s' with initialized := true }
    | Except.error (e, s') =>
        initLegacyTail env { s' with modern_error := some e.message }
  else initLegacyTail env s

/-- One lazy legacy load, `if self.X is None: self.X = self.load_X()`
(lines 110-117): call the loader only when the handle is still `None`;
a raising loader propagates.  The ghost `loaderCalls` counts loader
invocations. -/
def lazyStep (handle : Option Unit) (loader : Except String Unit)
    (s : EngineState) (store : EngineState → EngineState) :
    Except (PyErr × EngineState) EngineState :=
  if handle.isNone then
    let s := { s with loaderCalls := s.loaderCalls + 1 }
    match loader with
    | Except.ok _ => Except.ok (store s)
    | Except.error m => Except.error (PyErr.other m, s)
  else Except.ok s

/-- The legacy branch of `ensure_models_loaded` (lines 109-117): the four
models/processors are materialized lazily and independently. -/
def loadLegacyModels (env : Env) (s : EngineState) :
    Except (PyErr × EngineState) EngineState := do
  let s ← lazyStep s.det_model env.load_det_model_fn s
      (fun s => { s with det_model := some () })
  let s ← lazyStep s.det_processor env.load_det_processor_fn s
      (fun s => { s with det_processor := some () })
  let s ← lazyStep s.rec_model env.load_rec_model_fn s
      (fun s => { s with rec_model := some () })
  let s ← lazyStep s.rec_processor env.load_rec_processor_fn s
      (fun s => { s with rec_processor := some () })
  return s

/-- `SuryaEngine.ensure_models_loaded` (lines 106-122), the first thing
`predict` runs on every `/ocr` request: initialize, then lazily load the
legacy models (modern predictors were materialized during construction);
an engine with no mode raises. -/
def ensure_models_loaded (env : Env) (s : EngineState) :
    Except (PyErr × EngineState) EngineState := do
  let s ← initEngine env s
  if s.mode = some "legacy" then loadLegacyModels env s
  else if s.mode = some "modern" then return s
  else Except.error (PyErr.other "Surya engine is not initialized", s)

/-- The `models_ready` property (lines 145-151).  `all([...])` tests
truthiness of the four legacy handles; model objects are truthy, so
presence is the faithful reading. -/
def models_ready (s : EngineState) : Bool :=
  if s.mode = some "modern" then
    s.det_predictor.isSome && s.rec_predictor.isSome
  else if s.mode = some "legacy" then
    s.det_model.isSome && s.det_processor.isSome
      && s.rec_model.isSome && s.rec_processor.isSome
  else false

/-- The surya `/health` body. -/
structure HealthResponse where
  status : String
  engine : String
  models_loaded : Bool
deriving DecidableEq, Repr

/-- The `/health` handler (lines 229-237): a pure read of
`surya_engine.models_ready`. -/
def health_check (s : EngineState) : HealthResponse :=
  { status := if models_ready s then "healthy" else "degraded"
  , engine := "surya"
  , models_loaded := models_ready s }

/-- `/health` seen as a state transition: it produces the report and
hands back the engine state it was given — the handler performs no load
and no mutation. -/
def health_check_run (s : EngineState) : HealthResponse × EngineState :=
  (health_check s, s)

/-- One line of a Surya prediction as consumed by `perform_ocr`
(lines 198-210): every field is read with `getattr` and a default, so each
is optional; the confidence attribute, when present, is whatever Python
value the backend stored.  The modern Surya `bbox` is already a flat
`[x1, y1, x2, y2]` list. -/
structure TextLine where
  text : Option String
  confidence : Option PyVal
  bbox : Option (List ℚ)
deriving DecidableEq, Repr

/-- One prediction object; `text_lines` is read with
`getattr(pred, "text_lines", [])`. -/
structure Prediction where
  text_lines : Option (List TextLine)
deriving DecidableEq, Repr

/-- One element of the response's `lines` array (lines 204-210). -/
structure LineOut where
  text : String
  confidence : PyVal
  bbox : List ℚ
deriving DecidableEq, Repr

/-- The `getattr` extraction for one text line (lines 199-203). -/
def extractLine (l : TextLine) : LineOut :=
  { text := l.text.getD ""
  , confidence := l.confidence.getD (PyVal.num (85/100))
  , bbox := l.bbox.getD [] }

/-- `if predictions: pred = predictions[0]; for text_line in
getattr(pred, "text_lines", [])` (lines 196-210): only the first
prediction's lines are collected; an empty prediction list yields none. -/
def collectLines : List Prediction → List LineOut
  | [] => []
  | pred :: _ => (pred.text_lines.getD []).map extractLine

/-- The JSON body built by the surya service. -/
structure Response where
  engine : String
  text : String
  confidence : ℚ
  lines : List LineOut
deriving DecidableEq, Repr

/-- `perform_ocr`'s normalization section in
`src/ocr-services/surya-service/main.py` (lines 192-224).
`sum(confidences)` raises `TypeError` on a non-numeric entry, which the
handler turns into a 500 `"OCR processing failed: ..."` error; hoisting
the sum out of the conditional is harmless because the sum of an empty
list never raises. -/
def perform_ocr (predictions : List Prediction) : Except String Response :=
  let lines_data := collectLines predictions
  let texts := lines_data.map LineOut.text
  let confidences := lines_data.map LineOut.confidence
  match pySumAux 0 confidences with
  | Except.error e => Except.error ("OCR processing failed: " ++ e)
  | Except.ok total =>
      Except.ok
        { engine := "surya"
        , text := if texts ≠ [] then String.intercalate " " texts else ""
        , confidence :=
            if confidences ≠ [] then total / (confidences.length : ℚ)
            else 0
        , lines := lines_data }

/-- A concrete environment in which modern construction succeeds. -/
def envModernOk : Env :=
  { modernSpecPresent := true
  , load_predictors := Except.ok ()
  , importModule := fun _ =>
      Except.error (PyErr.moduleNotFound "No module named 'surya'")
  , load_det_model_fn := Except.ok ()
  , load_det_processor_fn := Except.ok ()
  , load_rec_model_fn := Except.ok ()
  , load_rec_processor_fn := Except.ok () }

/-- The engine state `initialize` produces under `envModernOk`. -/
def readyModernState : EngineState :=
  { initState with
    mode := some "modern", det_predictor := some (),
    rec_predictor := some (), task_name := some (),
    initialized := true, modernConstructCalls := 1 }

/-- A concrete environment in which the modern surface is present but
construction raises, and neither legacy namespace is installed. -/
def envBroken : Env :=
  { modernSpecPresent := true
  , load_predictors := Except.error "modern boom"
  , importModule := fun _ =>
      Except.error (PyErr.moduleNotFound "No module named 'surya'")
  , load_det_model_fn := Except.ok ()
  , load_det_processor_fn := Except.ok ()
  , load_rec_model_fn := Except.ok ()
  , load_rec_processor_fn := Except.ok () }

/-- A concrete environment in which the modern surface is absent and the
`surya` legacy namespace imports cleanly. -/
def envLegacyOk : Env :=
  { modernSpecPresent := false
  , load_predictors := Except.ok ()
  , importModule := fun _ => Except.ok ()
  , load_det_model_fn := Except.ok ()
  , load_det_processor_fn := Except.ok ()
  , load_rec_model_fn := Except.ok ()
  , load_rec_processor_fn := Except.ok () }

/-- The state after the first failed `ensure_models_loaded` under
`envBroken`: the error was recorded but `initialized` is still false. -/
def failedState1 : EngineState :=
  { initState with
    modern_error := some "modern boom",
    modernConstructCalls := 1, legacyProbeCalls := 1 }

/-- The state after a second failed call: both construction counters have
advanced again. -/
def failedState2 : EngineState :=
  { failedState1 with modernConstructCalls := 2, legacyProbeCalls := 2 }

end Surya

end Tai

/-! ## Helper lemmas -/

/-- Summing an all-numeric confidence list never raises and produces the
rational sum. -/
theorem tai_pySumAux_map_num (acc : ℚ) (cs : List ℚ) :
    Tai.pySumAux acc (cs.map Tai.PyVal.num) = Except.ok (acc + cs.sum) := by
  induction cs generalizing acc with
  | nil => simp [Tai.pySumAux]
  | cons c rest ih => simp [Tai.pySumAux, ih]; ring

/-- Joining two strings with the single-space separator. -/
theorem tai_intercalate_pair (t1 t2 : String) :
    String.intercalate " " [t1, t2] = t1 ++ " " ++ t2 := rfl

/-! ## Claims -/

/-- C9: for the Pix2Text engine, a bare-string native result makes both the
`text` and `latex` fields equal that string, with confidence fixed at 0.85. -/
theorem tai_C9_pix2text_bare_string (s : String) :
    (Tai.Pix2Text.perform_ocr (Tai.Pix2Text.P2TResult.str s)).text = s
    ∧ (Tai.Pix2Text.perform_ocr (Tai.Pix2Text.P2TResult.str s)).latex = s
    ∧ (Tai.Pix2Text.perform_ocr (Tai.Pix2Text.P2TResult.str s)).confidence
        = 85/100 :=
  ⟨rfl, rfl, rfl⟩

/-- C10: for a dict-shaped Pix2Text result, `text` is the dict's `'text'`
value (empty string when absent), `latex` equals `text`, and confidence is
the dict's `'score'` when present and 0.85 only when `'score'` is absent;
every non-dict shape yields the 0.85 constant, so the dict shape is the
only one through which a native confidence reaches the response. -/
theorem tai_C10_pix2text_dict (t : Option String) (sc : Option ℚ) :
    (Tai.Pix2Text.perform_ocr (Tai.Pix2Text.P2TResult.dict t sc)).text
        = t.getD ""
    ∧ (Tai.Pix2Text.perform_ocr (Tai.Pix2Text.P2TResult.dict t sc)).latex
        = (Tai.Pix2Text.perform_ocr (Tai.Pix2Text.P2TResult.dict t sc)).text
    ∧ (∀ q : ℚ, sc = some q →
        (Tai.Pix2Text.perform_ocr (Tai.Pix2Text.P2TResult.dict t sc)).confidence
          = q)
    ∧ (sc = none →
        (Tai.Pix2Text.perform_ocr (Tai.Pix2Text.P2TResult.dict t sc)).confidence
          = 85/100)
    ∧ (∀ r : Tai.Pix2Text.P2TResult,
        (∀ t' sc', r ≠ Tai.Pix2Text.P2TResult.dict t' sc') →
        (Tai.Pix2Text.perform_ocr r).confidence = 85/100) := by
  refine ⟨rfl, rfl, ?_, ?_, ?_⟩
  · intro q hq
    simp [Tai.Pix2Text.perform_ocr, hq]
  · intro hn
    simp [Tai.Pix2Text.perform_ocr, hn]
  · intro r hr
    cases r with
    | str s => rfl
    | list items => rfl
    | dict t' sc' => exact absurd rfl (hr t' sc')
    | other rep => rfl

/-- C10 witness: the theorem applied at a concrete dict result whose score
is present. -/
theorem tai_C10_pix2text_dict_witness :
    (Tai.Pix2Text.perform_ocr
        (Tai.Pix2Text.P2TResult.dict (some "x^2") (some (9/10)))).confidence
      = 9/10 :=
  (tai_C10_pix2text_dict (some "x^2") (some (9/10))).2.2.1 (9/10) rfl

/-- C2 counterexample: a Surya line whose `confidence` attribute is
present but non-numeric is passed through verbatim by the
`getattr(text_line, "confidence", 0.85)` read — it does not become 0.85
— and the request then fails with a 500 instead of producing a
normalized response. -/
theorem tai_C2_counterexample :
    (Tai.Surya.extractLine
        { text := some "x", confidence := some (Tai.PyVal.nonnum "high"),
          bbox := some [] }).confidence = Tai.PyVal.nonnum "high"
    ∧ Tai.PyVal.nonnum "high" ≠ Tai.PyVal.num (85/100)
    ∧ Tai.Surya.perform_ocr
        [⟨some [⟨some "x", some (Tai.PyVal.nonnum "high"), some []⟩]⟩]
      = Except.error
          "OCR processing failed: unsupported operand type for +: high" := by
  refine ⟨rfl, by decide, rfl⟩

/-- C2 (amended): the normalized per-line confidence equals the line's
native confidence value whenever the attribute is present — numeric or
not; a non-numeric value is passed through unchanged (and later makes the
request fail) — and equals the fixed constant 0.85 exactly when the
attribute is absent. -/
theorem tai_C2_fallback_confidence (l : Tai.Surya.TextLine) :
    (l.confidence = none →
        (Tai.Surya.extractLine l).confidence = Tai.PyVal.num (85/100))
    ∧ (∀ v, l.confidence = some v →
        (Tai.Surya.extractLine l).confidence = v) := by
  constructor
  · intro h
    simp [Tai.Surya.extractLine, h]
  · intro v h
    simp [Tai.Surya.extractLine, h]

/-- C2 witness: the amended theorem applied to a line lacking the
confidence attribute. -/
theorem tai_C2_fallback_confidence_witness :
    (Tai.Surya.extractLine
        { text := some "a", confidence := none, bbox := none }).confidence
      = Tai.PyVal.num (85/100) :=
  (tai_C2_fallback_confidence
      { text := some "a", confidence := none, bbox := none }).1 rfl

/-- C5: every PaddleOCR line's `boundingBox` is the flattening of the
backend's corner-point list (concretely
`[[0,0],[10,0],[10,5],[0,5]] ↦ [0,0,10,0,10,5,0,5]`), and the flattened
lines are what the response carries; every Surya line's already-flat
`bbox` is passed through as is, and a line with no box yields the empty
sequence. -/
theorem tai_C5_bbox_flattening (pl : Tai.Paddle.PaddleLine)
    (sl : Tai.Surya.TextLine) :
    (Tai.Paddle.lineOut pl).bbox = pl.bbox.flatten
    ∧ (Tai.Paddle.lineOut
        { bbox := [[0,0],[10,0],[10,5],[0,5]], text := "Hello",
          confidence := 9/10 }).bbox
      = [0,0,10,0,10,5,0,5]
    ∧ (Tai.Paddle.perform_ocr [[pl]]).lines = [Tai.Paddle.lineOut pl]
    ∧ (∀ fb : List ℚ, sl.bbox = some fb →
        (Tai.Surya.extractLine sl).bbox = fb)
    ∧ (sl.bbox = none → (Tai.Surya.extractLine sl).bbox = []) := by
  refine ⟨rfl, rfl, ?_, ?_, ?_⟩
  · simp [Tai.Paddle.perform_ocr, Tai.Paddle.parsedLines]
  · intro fb h
    simp [Tai.Surya.extractLine, h]
  · intro h
    simp [Tai.Surya.extractLine, h]

/-- C5 witness: the Surya passthrough clause at a concrete flat box. -/
theorem tai_C5_bbox_flattening_witness :
    (Tai.Surya.extractLine
        { text := some "w", confidence := none,
          bbox := some [1, 2, 3, 4] }).bbox = [1, 2, 3, 4] :=
  (tai_C5_bbox_flattening
      { bbox := [], text := "", confidence := 0 }
      { text := some "w", confidence := none,
        bbox := some [1, 2, 3, 4] }).2.2.2.1 [1, 2, 3, 4] rfl

/-- C7: the Surya `/health` report says `healthy` exactly when
`models_ready` holds — mode selected and every handle of that mode
present — and `degraded` otherwise; producing it is a pure read that
leaves the engine state (in particular the load and construction
counters) untouched.  The paddle service's `/health` is the constant
`healthy` body, and its only process state — the handle constructed when
the module loads — is present in any serving process. -/
theorem tai_C7_readiness (s : Tai.Surya.EngineState) :
    ((Tai.Surya.health_check s).status = "healthy"
        ↔ Tai.Surya.models_ready s = true)
    ∧ ((Tai.Surya.health_check s).status = "degraded"
        ↔ Tai.Surya.models_ready s = false)
    ∧ (Tai.Surya.health_check s).models_loaded = Tai.Surya.models_ready s
    ∧ (Tai.Surya.health_check_run s).2 = s
    ∧ (s.loaderCalls = 0 →
        (Tai.Surya.health_check_run s).2.loaderCalls = 0)
    ∧ (s.modernConstructCalls = 0 →
        (Tai.Surya.health_check_run s).2.modernConstructCalls = 0)
    ∧ Tai.Paddle.health_check.status = "healthy"
    ∧ Tai.Paddle.startState.ocrHandle.isSome = true := by
  refine ⟨?_, ?_, rfl, rfl, ?_, ?_, rfl, rfl⟩
  · cases hm : Tai.Surya.models_ready s <;>
      simp [Tai.Surya.health_check, hm]
  · cases hm : Tai.Surya.models_ready s <;>
      simp [Tai.Surya.health_check, hm]
  · intro h; simpa [Tai.Surya.health_check_run] using h
  · intro h; simpa [Tai.Surya.health_check_run] using h

/-- C7 witness: the readiness theorem applied to the fresh engine state,
whose counters are zero. -/
theorem tai_C7_readiness_witness :
    (Tai.Surya.health_check_run Tai.Surya.initState).2.loaderCalls = 0 :=
  (tai_C7_readiness Tai.Surya.initState).2.2.2.2.1 rfl

/-- Unfolding lemma: `Surya.perform_ocr` as a single match on the
confidence sum. -/
theorem tai_surya_perform_ocr_eq (preds : List Tai.Surya.Prediction) :
    Tai.Surya.perform_ocr preds =
      match Tai.pySumAux 0
          ((Tai.Surya.collectLines preds).map Tai.Surya.LineOut.confidence) with
      | Except.error e => Except.error ("OCR processing failed: " ++ e)
      | Except.ok total =>
          Except.ok
            { engine := "surya"
            , text :=
                if ((Tai.Surya.collectLines preds).map Tai.Surya.LineOut.text)
                    ≠ [] then
                  String.intercalate " "
                    ((Tai.Surya.collectLines preds).map Tai.Surya.LineOut.text)
                else ""
            , confidence :=
                if ((Tai.Surya.collectLines preds).map
                      Tai.Surya.LineOut.confidence) ≠ [] then
                  total / (((Tai.Surya.collectLines preds).map
                      Tai.Surya.LineOut.confidence).length : ℚ)
                else 0
            , lines := Tai.Surya.collectLines preds } := rfl

/-- C1: in both services the normalized `text` is the per-line texts
joined with one space in backend order (empty for zero lines) and the
normalized `confidence` is the arithmetic mean of the per-line
confidences (0, not NaN, for zero lines); in particular two lines
`(t1,c1),(t2,c2)` give `t1 ++ " " ++ t2` and `(c1+c2)/2`. -/
theorem tai_C1_normalizer_totals
    (preds : List Tai.Surya.Prediction) (r : Tai.Surya.Response)
    (hok : Tai.Surya.perform_ocr preds = Except.ok r)
    (result : List (List Tai.Paddle.PaddleLine))
    (t1 t2 : String) (c1 c2 : ℚ) :
    r.text = String.intercalate " "
        ((Tai.Surya.collectLines preds).map Tai.Surya.LineOut.text)
    ∧ (∀ cs : List ℚ,
        (Tai.Surya.collectLines preds).map Tai.Surya.LineOut.confidence
          = cs.map Tai.PyVal.num →
        r.confidence = if cs = [] then 0 else cs.sum / (cs.length : ℚ))
    ∧ (Tai.Surya.collectLines preds = [] → r.text = "" ∧ r.confidence = 0)
    ∧ Tai.Surya.perform_ocr
        [⟨some [⟨some t1, some (Tai.PyVal.num c1), none⟩,
                ⟨some t2, some (Tai.PyVal.num c2), none⟩]⟩]
      = Except.ok ⟨"surya", t1 ++ " " ++ t2, (c1 + c2) / 2,
          [⟨t1, Tai.PyVal.num c1, []⟩, ⟨t2, Tai.PyVal.num c2, []⟩]⟩
    ∧ (Tai.Paddle.perform_ocr result).text
        = String.intercalate " "
            ((Tai.Paddle.parsedLines result).map Tai.Paddle.PaddleLine.text)
    ∧ (Tai.Paddle.perform_ocr result).confidence
        = (if Tai.Paddle.parsedLines result = [] then 0
           else ((Tai.Paddle.parsedLines result).map
                    Tai.Paddle.PaddleLine.confidence).sum
                  / ((Tai.Paddle.parsedLines result).length : ℚ))
    ∧ (Tai.Paddle.perform_ocr []).text = ""
    ∧ (Tai.Paddle.perform_ocr []).confidence = 0
    ∧ (Tai.Paddle.perform_ocr [[⟨[], t1, c1⟩, ⟨[], t2, c2⟩]]).text
        = t1 ++ " " ++ t2
    ∧ (Tai.Paddle.perform_ocr [[⟨[], t1, c1⟩, ⟨[], t2, c2⟩]]).confidence
        = (c1 + c2) / 2 := by
  classical
  rw [tai_surya_perform_ocr_eq] at hok
  rcases h : Tai.pySumAux 0
      ((Tai.Surya.collectLines preds).map Tai.Surya.LineOut.confidence)
      with e | total
  · rw [h] at hok; simp at hok
  rw [h] at hok
  simp only [Except.ok.injEq] at hok
  subst hok
  refine ⟨?_, ?_, ?_, ?_, ?_, ?_, rfl, rfl, ?_, ?_⟩
  · by_cases ht :
        (Tai.Surya.collectLines preds).map Tai.Surya.LineOut.text = []
    · rw [if_neg (not_not_intro ht), ht]
      rfl
    · rw [if_pos ht]
  · intro cs hcs
    rw [hcs] at h
    rw [tai_pySumAux_map_num] at h
    simp only [Except.ok.injEq] at h
    rw [hcs, List.length_map]
    by_cases hc : cs = []
    · subst hc
      simp
    · rw [if_pos (show (cs.map Tai.PyVal.num) ≠ [] by simp [hc]),
        if_neg hc, ← h, zero_add]
  · intro h0
    simp [h0]
  · rw [tai_surya_perform_ocr_eq]
    simp only [Tai.Surya.collectLines, Tai.Surya.extractLine, List.map_cons,
      List.map_nil, Option.getD_some, Option.getD_none, Tai.pySumAux]
    simp only [Except.ok.injEq, Tai.Surya.Response.mk.injEq, ne_eq,
      reduceCtorEq, not_false_iff, if_true, List.length_cons,
      List.length_nil, true_and, and_true]
    constructor
    · rfl
    · push_cast
      ring
  · simp only [Tai.Paddle.perform_ocr]
    by_cases ht :
        (Tai.Paddle.parsedLines result).map Tai.Paddle.PaddleLine.text = []
    · rw [if_neg (not_not_intro ht), ht]
      rfl
    · rw [if_pos ht]
  · simp only [Tai.Paddle.perform_ocr]
    by_cases hl : Tai.Paddle.parsedLines result = []
    · simp [hl]
    · rw [if_pos (show (Tai.Paddle.parsedLines result).map
            Tai.Paddle.PaddleLine.confidence ≠ [] by simp [hl]),
        if_neg hl, List.length_map]
  · simp only [Tai.Paddle.perform_ocr, Tai.Paddle.parsedLines, ne_eq,
      reduceCtorEq, not_false_iff, if_true, List.map_cons, List.map_nil]
    rfl
  · simp only [Tai.Paddle.perform_ocr, Tai.Paddle.parsedLines, ne_eq,
      reduceCtorEq, not_false_iff, if_true, List.map_cons, List.map_nil,
      List.sum_cons, List.sum_nil, List.length_cons, List.length_nil]
    push_cast
    ring

/-- C1 witness: the general theorem instantiated at the spec's end-to-end
example — two lines with confidences 0.9 and 0.7. -/
theorem tai_C1_normalizer_totals_witness :
    Tai.Surya.perform_ocr
        [⟨some [⟨some "Hello", some (Tai.PyVal.num (9/10)), none⟩,
                ⟨some "World", some (Tai.PyVal.num (7/10)), none⟩]⟩]
      = Except.ok ⟨"surya", "Hello" ++ " " ++ "World", (9/10 + 7/10) / 2,
          [⟨"Hello", Tai.PyVal.num (9/10), []⟩,
           ⟨"World", Tai.PyVal.num (7/10), []⟩]⟩ :=
  (tai_C1_normalizer_totals [] ⟨"surya", "", 0, []⟩ rfl [] "Hello" "World"
      (9/10) (7/10)).2.2.2.1

/-- Helper: a successful `initialize` always leaves the engine marked
initialized, whichever path produced it. -/
theorem tai_initLegacyTail_ok_flag (env : Tai.Surya.Env)
    (t s' : Tai.Surya.EngineState)
    (h : Tai.Surya.initLegacyTail env t = Except.ok s') :
    s'.initialized = true := by
  unfold Tai.Surya.initLegacyTail at h
  rcases hp : Tai.Surya.init_legacy env t with ep | s1
  · rw [hp] at h
    simp at h
  · rw [hp] at h
    simp only [Except.ok.injEq] at h
    subst h
    rfl

/-- Helper: a failing `_init_legacy` (hence a failing `initialize`) hands
back the caller's state unchanged except for the ghost probe counter. -/
theorem tai_initLegacyTail_error_state (env : Tai.Surya.Env)
    (t s' : Tai.Surya.EngineState) (e : Tai.Surya.PyErr)
    (h : Tai.Surya.initLegacyTail env t = Except.error (e, s')) :
    s' = { t with legacyProbeCalls := t.legacyProbeCalls + 1 } := by
  unfold Tai.Surya.initLegacyTail Tai.Surya.init_legacy at h
  rcases hp : Tai.Surya.probeCandidates env ["surya", "surya_ocr"]
      with pe | oc
  · rw [hp] at h
    simp only [Except.error.injEq, Prod.mk.injEq] at h
    exact h.2.symm
  · rcases oc with _ | c
    · rw [hp] at h
      simp only [Except.error.injEq, Prod.mk.injEq] at h
      exact h.2.symm
    · rw [hp] at h
      simp at h

/-- C3: when the modern module surface is present and modern construction
succeeds, the engine initializes in modern mode with the legacy path never
attempted and no error recorded; when the modern surface is present but
construction throws, the error is recorded in `modern_error` and only then
is the legacy path attempted (exactly once); when the modern surface is
absent, the engine reaches the ready legacy state with no modern
construction attempt. -/
theorem tai_C3_variant_selection (env : Tai.Surya.Env) :
    (env.modernSpecPresent = true → env.load_predictors = Except.ok () →
      Tai.Surya.initEngine env Tai.Surya.initState
          = Except.ok Tai.Surya.readyModernState
        ∧ Tai.Surya.readyModernState.mode = some "modern"
        ∧ Tai.Surya.readyModernState.initialized = true
        ∧ Tai.Surya.readyModernState.modern_error = none
        ∧ Tai.Surya.readyModernState.legacyProbeCalls = 0)
    ∧ (∀ e : String, env.modernSpecPresent = true →
        env.load_predictors = Except.error e →
        (∀ s', Tai.Surya.initEngine env Tai.Surya.initState
            = Except.ok s' →
          s'.modern_error = some e ∧ s'.mode = some "legacy"
            ∧ s'.legacyProbeCalls = 1 ∧ s'.initialized = true)
        ∧ (∀ pe s',
            Tai.Surya.initEngine env Tai.Surya.initState
              = Except.error (pe, s') →
            s'.modern_error = some e ∧ s'.legacyProbeCalls = 1))
    ∧ (∀ c : String, env.modernSpecPresent = false →
        Tai.Surya.probeCandidates env ["surya", "surya_ocr"]
          = Except.ok (some c) →
        ∃ s', Tai.Surya.initEngine env Tai.Surya.initState = Except.ok s'
          ∧ s'.mode = some "legacy" ∧ s'.modernConstructCalls = 0
          ∧ s'.legacyPackage = some c ∧ s'.initialized = true) := by
  refine ⟨?_, ?_, ?_⟩
  · intro h1 h2
    refine ⟨?_, rfl, rfl, rfl, rfl⟩
    simp [Tai.Surya.initEngine, Tai.Surya.init_modern, Tai.Surya.initState,
      Tai.Surya.readyModernState, h1, h2]
  · intro e h1 h2
    have hred : Tai.Surya.initEngine env Tai.Surya.initState
        = Tai.Surya.initLegacyTail env
            { Tai.Surya.initState with
              modernConstructCalls := 1, modern_error := some e } := by
      simp [Tai.Surya.initEngine, Tai.Surya.init_modern, Tai.Surya.initState,
        Tai.Surya.PyErr.message, h1, h2]
    constructor
    · intro s' hs'
      rw [hred] at hs'
      unfold Tai.Surya.initLegacyTail Tai.Surya.init_legacy at hs'
      rcases hp : Tai.Surya.probeCandidates env ["surya", "surya_ocr"]
          with pe | oc
      · rw [hp] at hs'
        simp at hs'
      · rcases oc with _ | c
        · rw [hp] at hs'
          simp at hs'
        · rw [hp] at hs'
          simp only [Except.ok.injEq] at hs'
          subst hs'
          exact ⟨rfl, rfl, rfl, rfl⟩
    · intro pe s' hs'
      rw [hred] at hs'
      have := tai_initLegacyTail_error_state env _ s' pe hs'
      subst this
      exact ⟨rfl, rfl⟩
  · intro c h1 hp
    refine ⟨{ Tai.Surya.initState with
        run_ocr := some (), load_det_model := some (),
        load_det_processor := some (), load_rec_model := some (),
        load_rec_processor := some (), mode := some "legacy",
        legacyPackage := some c, legacyProbeCalls := 1,
        initialized := true }, ?_, rfl, rfl, rfl, rfl⟩
    simp [Tai.Surya.initEngine, Tai.Surya.initLegacyTail,
      Tai.Surya.init_legacy, Tai.Surya.initState, h1, hp]

/-- C3 witness: the modern-success clause at a concrete environment. -/
theorem tai_C3_variant_selection_witness :
    Tai.Surya.initEngine Tai.Surya.envModernOk Tai.Surya.initState
      = Except.ok Tai.Surya.readyModernState
    ∧ Tai.Surya.readyModernState.legacyProbeCalls = 0 :=
  ⟨((tai_C3_variant_selection Tai.Surya.envModernOk).1 rfl rfl).1,
   ((tai_C3_variant_selection Tai.Surya.envModernOk).1 rfl rfl).2.2.2.2⟩

/-- C8: `initialize` is idempotent — a successful call leaves the engine
marked initialized, and calling it again returns the same state unchanged
(in particular the construction-call counters stay where they were). -/
theorem tai_C8_idempotent_init (env : Tai.Surya.Env)
    (s s' : Tai.Surya.EngineState)
    (h : Tai.Surya.initEngine env s = Except.ok s') :
    s'.initialized = true
    ∧ Tai.Surya.initEngine env s' = Except.ok s' := by
  have hflag : s'.initialized = true := by
    by_cases hi : s.initialized
    · unfold Tai.Surya.initEngine at h
      rw [if_pos hi] at h
      simp only [Except.ok.injEq] at h
      subst h
      exact hi
    · unfold Tai.Surya.initEngine at h
      rw [if_neg hi] at h
      by_cases hm : env.modernSpecPresent
      · rw [if_pos hm] at h
        rcases hmod : Tai.Surya.init_modern env s with ep | s1
        · rcases ep with ⟨e, s1⟩
          rw [hmod] at h
          exact tai_initLegacyTail_ok_flag env _ s' h
        · rw [hmod] at h
          simp only [Except.ok.injEq] at h
          subst h
          rfl
      · rw [if_neg hm] at h
        exact tai_initLegacyTail_ok_flag env s s' h
  refine ⟨hflag, ?_⟩
  unfold Tai.Surya.initEngine
  rw [if_pos hflag]

/-- C8 witness: after a successful modern initialization the construction
counter is 1, and a second `initialize` returns the state unchanged. -/
theorem tai_C8_idempotent_init_witness :
    Tai.Surya.initEngine Tai.Surya.envModernOk Tai.Surya.readyModernState
      = Except.ok Tai.Surya.readyModernState
    ∧ Tai.Surya.readyModernState.modernConstructCalls = 1 :=
  ⟨(tai_C8_idempotent_init Tai.Surya.envModernOk Tai.Surya.initState
      Tai.Surya.readyModernState rfl).2, rfl⟩

/-- C4 counterexample: in an environment where both variants fail, a
second `infer` entry (`ensure_models_loaded`) after a failed load does NOT
surface a fast error — it re-attempts the whole initialization, calling
`load_predictors()` again (construction counter 1 → 2) and re-probing the
legacy namespaces (probe counter 1 → 2), because the failed first call
never set `initialized`. -/
theorem tai_C4_counterexample :
    Tai.Surya.ensure_models_loaded Tai.Surya.envBroken Tai.Surya.initState
      = Except.error (Tai.Surya.PyErr.other
          "Surya OCR package not installed (checked 'surya' and 'surya_ocr'); modern API error: modern boom",
          Tai.Surya.failedState1)
    ∧ Tai.Surya.failedState1.initialized = false
    ∧ Tai.Surya.ensure_models_loaded Tai.Surya.envBroken
          Tai.Surya.failedState1
      = Except.error (Tai.Surya.PyErr.other
          "Surya OCR package not installed (checked 'surya' and 'surya_ocr'); modern API error: modern boom",
          Tai.Surya.failedState2)
    ∧ Tai.Surya.failedState2.modernConstructCalls = 2
    ∧ Tai.Surya.failedState2.legacyProbeCalls = 2 :=
  ⟨rfl, rfl, rfl, rfl, rfl⟩

/-- C4 (amended): after a failed load the engine is left uninitialized,
so every subsequent call that fails again has re-run the full
initialization — one fresh legacy probe, and one fresh modern
construction attempt whenever the modern surface is present; there is no
persistent Failed state and no fast-fail path, only an explicit repeat of
the expensive work. -/
theorem tai_C4_no_fast_fail (env : Tai.Surya.Env)
    (s s' : Tai.Surya.EngineState) (e : Tai.Surya.PyErr)
    (hinit : s.initialized = false)
    (h : Tai.Surya.initEngine env s = Except.error (e, s')) :
    s'.initialized = false
    ∧ s'.legacyProbeCalls = s.legacyProbeCalls + 1
    ∧ s'.modernConstructCalls
        = s.modernConstructCalls
            + (if env.modernSpecPresent then 1 else 0) := by
  unfold Tai.Surya.initEngine at h
  rw [if_neg (by simp [hinit])] at h
  by_cases hm : env.modernSpecPresent
  · rw [if_pos hm] at h
    rcases hl : env.load_predictors with em | u
    · unfold Tai.Surya.init_modern at h
      rw [hl] at h
      have hs := tai_initLegacyTail_error_state env _ s' e h
      subst hs
      refine ⟨hinit, rfl, ?_⟩
      rw [if_pos hm]
    · unfold Tai.Surya.init_modern at h
      rw [hl] at h
      simp at h
  · rw [if_neg hm] at h
    have hs := tai_initLegacyTail_error_state env s s' e h
    subst hs
    refine ⟨hinit, rfl, ?_⟩
    rw [if_neg hm]
    rfl
/-- C4 witness: the amended theorem at the broken environment. -/
theorem tai_C4_no_fast_fail_witness :
    Tai.Surya.failedState1.initialized = false
    ∧ Tai.Surya.failedState1.legacyProbeCalls
        = Tai.Surya.initState.legacyProbeCalls + 1 :=
  ⟨(tai_C4_no_fast_fail Tai.Surya.envBroken Tai.Surya.initState
      Tai.Surya.failedState1
      (Tai.Surya.PyErr.other
        "Surya OCR package not installed (checked 'surya' and 'surya_ocr'); modern API error: modern boom")
      rfl rfl).1,
   (tai_C4_no_fast_fail Tai.Surya.envBroken Tai.Surya.initState
      Tai.Surya.failedState1
      (Tai.Surya.PyErr.other
        "Surya OCR package not installed (checked 'surya' and 'surya_ocr'); modern API error: modern boom")
      rfl rfl).2.1⟩

/-- C6: the legacy path probes the namespaces `surya` then `surya_ocr`;
the first whose five modules all import wins; when both fail with
`ModuleNotFoundError`, `_init_legacy` raises a composite message that
names both probed namespaces and appends the recorded modern-path error
when there is one. -/
theorem tai_C6_legacy_namespace_probe (env : Tai.Surya.Env)
    (s : Tai.Surya.EngineState) :
    (Tai.Surya.importAll env (Tai.Surya.legacyModulePaths "surya")
        = Except.ok () →
      ∃ s', Tai.Surya.init_legacy env s = Except.ok s'
        ∧ s'.legacyPackage = some "surya" ∧ s'.mode = some "legacy")
    ∧ (∀ m, Tai.Surya.importAll env (Tai.Surya.legacyModulePaths "surya")
          = Except.error (Tai.Surya.PyErr.moduleNotFound m) →
        Tai.Surya.importAll env (Tai.Surya.legacyModulePaths "surya_ocr")
          = Except.ok () →
      ∃ s', Tai.Surya.init_legacy env s = Except.ok s'
        ∧ s'.legacyPackage = some "surya_ocr" ∧ s'.mode = some "legacy")
    ∧ (∀ m1 m2,
        Tai.Surya.importAll env (Tai.Surya.legacyModulePaths "surya")
          = Except.error (Tai.Surya.PyErr.moduleNotFound m1) →
        Tai.Surya.importAll env (Tai.Surya.legacyModulePaths "surya_ocr")
          = Except.error (Tai.Surya.PyErr.moduleNotFound m2) →
        Tai.Surya.init_legacy env s
          = Except.error
              (Tai.Surya.PyErr.other
                (Tai.Surya.legacyFailDetail s.modern_error),
               { s with legacyProbeCalls := s.legacyProbeCalls + 1 }))
    ∧ (∀ e, Tai.Surya.legacyFailDetail (some e)
        = "Surya OCR package not installed (checked 'surya' and 'surya_ocr'); modern API error: "
            ++ e)
    ∧ Tai.Surya.legacyFailDetail none
        = "Surya OCR package not installed (checked 'surya' and 'surya_ocr')" := by
  refine ⟨?_, ?_, ?_, fun e => rfl, rfl⟩
  · intro h1
    refine ⟨{ s with
        run_ocr := some (), load_det_model := some (),
        load_det_processor := some (), load_rec_model := some (),
        load_rec_processor := some (), mode := some "legacy",
        legacyPackage := some "surya",
        legacyProbeCalls := s.legacyProbeCalls + 1 }, ?_, rfl, rfl⟩
    simp [Tai.Surya.init_legacy, Tai.Surya.probeCandidates, h1]
  · intro m h1 h2
    refine ⟨{ s with
        run_ocr := some (), load_det_model := some (),
        load_det_processor := some (), load_rec_model := some (),
        load_rec_processor := some (), mode := some "legacy",
        legacyPackage := some "surya_ocr",
        legacyProbeCalls := s.legacyProbeCalls + 1 }, ?_, rfl, rfl⟩
    simp [Tai.Surya.init_legacy, Tai.Surya.probeCandidates, h1, h2]
  · intro m1 m2 h1 h2
    simp [Tai.Surya.init_legacy, Tai.Surya.probeCandidates, h1, h2]

/-- C6 witness: the first-namespace clause at an environment where every
legacy module imports. -/
theorem tai_C6_legacy_namespace_probe_witness :
    ∃ s', Tai.Surya.init_legacy Tai.Surya.envLegacyOk Tai.Surya.initState
        = Except.ok s'
      ∧ s'.legacyPackage = some "surya" ∧ s'.mode = some "legacy" :=
  (tai_C6_legacy_namespace_probe Tai.Surya.envLegacyOk
      Tai.Surya.initState).1 rfl
